import Mathlib

/-!
Verification development for the AI-Invoice extraction core.

The Python sources (`app.py`, `gemini_extractor.py`, `structured_data.py`)
are shallowly embedded below.  Machine floats are modelled as exact
rationals (`Rat`): every numeric literal occurring in the sources
(0.3, 0.5, 0.6, 1.5, amounts with two decimals) is an exact decimal, so
the idealisation only removes rounding noise that the specification
itself waves away as "floating tolerance".  Python's `re` module is
modelled by a small backtracking engine (`Regex`) over `List Char`,
faithful to leftmost search, left-biased alternation, greedy/lazy
quantifiers, anchors and word boundaries for the constructs the
patterns of this repository use; `re.IGNORECASE` is baked into the
character classes and literals, and the MULTILINE flag is the `ml`
parameter.
-/

namespace AIInvoice

/-- Characters Python's `str.strip` and the regex class `\s` treat as
whitespace (ASCII subset, which is all this repository's texts use). -/
def isPySpace (c : Char) : Bool :=
  c = ' ' || c = '\t' || c = '\n' || c = '\r' || c = '\x0b' || c = '\x0c'

/-- Python `str.strip()`. -/
def pyStrip (s : String) : String :=
  String.mk (((s.data.dropWhile isPySpace).reverse.dropWhile isPySpace).reverse)

/-- Python `str.lower()` (ASCII). -/
def pyLower (s : String) : String :=
  String.mk (s.data.map Char.toLower)

/-- Python substring test `needle in hay` on char lists. -/
def isSubstrOf (needle : List Char) : List Char → Bool
  | [] => needle.isEmpty
  | c :: t => needle.isPrefixOf (c :: t) || isSubstrOf needle t

/-- Python substring test `w in s` on strings. -/
def containsWord (s w : String) : Bool := isSubstrOf w.data s.data

/-- Word characters for the regex `\w` and `\b` (ASCII). -/
def isWordChar (c : Char) : Bool := c.isAlphanum || c = '_'

/-- Python `str.isdigit()` (ASCII digits; all texts here are ASCII). -/
def pyIsDigit (s : String) : Bool := !s.data.isEmpty && s.data.all Char.isDigit

def digitsVal (l : List Char) : Nat :=
  l.foldl (fun a c => 10 * a + (c.toNat - '0'.toNat)) 0

/-- Python `float(s)` restricted to the strings that can reach it in this
code base: the argument is drawn from the alphabet `[0-9.-]` (the cleaning
regexes strip everything else) or matches `\d+(\.\d+)?`.  Returns `none`
exactly when Python would raise `ValueError`. -/
def parsePyFloat (s : String) : Option Rat :=
  let cs := s.data
  let (neg, cs) := match cs with
    | '-' :: t => (true, t)
    | _ => (false, cs)
  let ip := cs.takeWhile Char.isDigit
  let rest := cs.dropWhile Char.isDigit
  let sgn : Rat := if neg then -1 else 1
  match rest with
  | [] =>
    if ip.isEmpty then none
    else some (sgn * (digitsVal ip : Rat))
  | '.' :: rest2 =>
    let fp := rest2.takeWhile Char.isDigit
    let rest3 := rest2.dropWhile Char.isDigit
    if rest3.isEmpty && !(ip.isEmpty && fp.isEmpty) then
      some (sgn * ((digitsVal ip : Rat) + (digitsVal fp : Rat) / ((10 : Rat) ^ fp.length)))
    else none
  | _ => none

/-- Round a rational to the nearest integer, ties to even
(the rounding Python's fixed-point float formatting uses). -/
def roundHalfEven (x : Rat) : Int :=
  let f : Int := x.floor
  let r : Rat := x - (f : Rat)
  if r < 1 / 2 then f
  else if 1 / 2 < r then f + 1
  else if f % 2 = 0 then f else f + 1

def padZeros (s : String) (n : Nat) : String :=
  if n ≤ s.length then s else String.mk (List.replicate (n - s.length) '0') ++ s

/-- Python fixed-point formatting `f"{x:.precf}"`, on the exact rational. -/
def ratToFixed (q : Rat) (prec : Nat) : String :=
  let n : Int := roundHalfEven (q * ((10 : Rat) ^ prec))
  let m : Nat := n.natAbs
  let base : Nat := 10 ^ prec
  let ip := m / base
  let fp := m % base
  (if n < 0 then "-" else "") ++ toString ip ++
    (if prec = 0 then "" else "." ++ padZeros (toString fp) prec)

/-! ## A small backtracking regex engine (model of Python `re`) -/

/-- Abstract syntax of the regular expressions this repository uses.
`cls` is a character class (one character), `rep` a counted repetition
(`lo` mandatory, `hi = none` unbounded, `greedy = false` for lazy `+?`/`*?`),
`group` a numbered capture, `bol`/`eol` the `^`/`$` anchors and `wb` is `\b`. -/
inductive Regex where
  | eps
  | cls (p : Char → Bool)
  | seq (a b : Regex)
  | alt (a b : Regex)
  | rep (a : Regex) (lo : Nat) (hi : Option Nat) (greedy : Bool)
  | group (i : Nat) (a : Regex)
  | bol
  | eol
  | wb

def wordBefore : Option Char → Bool
  | none => false
  | some c => isWordChar c

def wordAfter : List Char → Bool
  | [] => false
  | c :: _ => isWordChar c

/-- Backtracking matcher in continuation-passing style.  `prev` is the
character just before the current position (for `^` and `\b`), `ml` the
MULTILINE flag.  `fuel` bounds the recursion depth; `bigFuel` below is
always enough for the patterns and inputs of this repository, since every
unbounded repetition in them consumes at least one character per
iteration. -/
def Regex.mmatch {σ : Type} (ml : Bool) :
    Nat → Regex → Option Char → List Char → List (Nat × List Char) →
    (Option Char → List Char → List (Nat × List Char) → Option σ) → Option σ
  | 0, _, _, _, _, _ => none
  | fuel + 1, r, prev, s, caps, k =>
    match r with
    | .eps => k prev s caps
    | .cls p =>
      match s with
      | [] => none
      | c :: t => if p c then k (some c) t caps else none
    | .seq a b =>
      Regex.mmatch ml fuel a prev s caps fun p2 s2 c2 =>
        Regex.mmatch ml fuel b p2 s2 c2 k
    | .alt a b =>
      match Regex.mmatch ml fuel a prev s caps k with
      | some res => some res
      | none => Regex.mmatch ml fuel b prev s caps k
    | .group i a =>
      Regex.mmatch ml fuel a prev s caps fun p2 s2 c2 =>
        k p2 s2 ((i, s.take (s.length - s2.length)) :: c2)
    | .bol =>
      match prev with
      | none => k prev s caps
      | some c => if ml && c = '\n' then k prev s caps else none
    | .eol =>
      match s with
      | [] => k prev s caps
      | c :: t => if c = '\n' && (ml || t.isEmpty) then k prev s caps else none
    | .wb =>
      if wordBefore prev != wordAfter s then k prev s caps else none
    | .rep a lo hi g =>
      let canIter := match hi with
        | none => true
        | some h => h != 0
      let hi2 : Option Nat := match hi with
        | none => none
        | some h => some (h - 1)
      let iter : Option σ :=
        if canIter then
          Regex.mmatch ml fuel a prev s caps fun p2 s2 c2 =>
            if s2.length < s.length then
              Regex.mmatch ml fuel (.rep a (lo - 1) hi2 g) p2 s2 c2 k
            else none
        else none
      if lo = 0 then
        if g then
          match iter with
          | some res => some res
          | none => k prev s caps
        else
          match k prev s caps with
          | some res => some res
          | none => iter
      else iter

/-- Fuel that amply bounds the matcher's recursion depth for the patterns
of this repository on an input of `n` characters. -/
def bigFuel (n : Nat) : Nat := 1024 * (n + 4)

/-- Result of a successful `re.search`: the captures and the whole match
(`group(0)`). -/
structure MatchRes where
  caps : List (Nat × List Char)
  matched : List Char
  deriving DecidableEq, Repr

/-- Try the pattern at the current position, else advance one character:
Python's leftmost-match search. -/
def searchAux (ml : Bool) (r : Regex) (prev : Option Char) (s : List Char) :
    Option MatchRes :=
  match Regex.mmatch ml (bigFuel s.length) r prev s []
      (fun _ s2 caps => some (caps, s2)) with
  | some (caps, s2) => some ⟨caps, s.take (s.length - s2.length)⟩
  | none =>
    match s with
    | [] => none
    | c :: t => searchAux ml r (some c) t

/-- Model of `re.search(pattern, s, flags)`; `ml` is whether `re.MULTILINE` is set
(`re.IGNORECASE` is baked into the patterns themselves). -/
def reSearch (ml : Bool) (r : Regex) (s : String) : Option MatchRes :=
  searchAux ml r none s.data

/-- Model of `match.group(i).` of a successful search (the patterns below always
bind every group they declare, so the default is never exercised). -/
def grp (m : MatchRes) (i : Nat) : String :=
  ((m.caps.find? (fun x => x.fst = i)).map (fun x => String.mk x.snd)).getD ""

/-- Auxiliary loop for `re.sub`: replace every non-overlapping match. -/
def rsubAux (ml : Bool) (r : Regex) (repl : List Char) :
    Nat → Option Char → List Char → List Char
  | 0, _, s => s
  | fuel + 1, prev, s =>
    match Regex.mmatch ml (bigFuel s.length) r prev s []
        (fun p2 s2 _ => some (p2, s2)) with
    | some (p2, s2) =>
      if s2.length < s.length then repl ++ rsubAux ml r repl fuel p2 s2
      else
        match s with
        | [] => repl
        | c :: t => repl ++ c :: rsubAux ml r repl fuel (some c) t
    | none =>
      match s with
      | [] => []
      | c :: t => c :: rsubAux ml r repl fuel (some c) t

/-- Model of `re.sub(pattern, repl, s)` (no backreferences in any replacement of
this repository). -/
def rsub (ml : Bool) (r : Regex) (repl : String) (s : String) : String :=
  String.mk (rsubAux ml r repl.data (s.length + 1) none s.data)

/-! ### Pattern construction helpers -/

def rseq (l : List Regex) : Regex := l.foldr Regex.seq Regex.eps

def raltL : List Regex → Regex
  | [] => Regex.eps
  | [r] => r
  | r :: t => Regex.alt r (raltL t)

/-- Case-sensitive literal character. -/
def rchar (c : Char) : Regex := Regex.cls (fun x => x = c)

/-- Case-insensitive literal character (every pattern of the sources that
contains letters is compiled with `re.IGNORECASE`). -/
def icchar (c : Char) : Regex := Regex.cls (fun x => x.toLower = c.toLower)

/-- Case-insensitive literal string. -/
def rlit (s : String) : Regex := rseq (s.data.map icchar)

def rstar (r : Regex) : Regex := Regex.rep r 0 none true
def rplus (r : Regex) : Regex := Regex.rep r 1 none true
def ropt (r : Regex) : Regex := Regex.rep r 0 (some 1) true
def lazyPlus (r : Regex) : Regex := Regex.rep r 1 none false
def lazyStar (r : Regex) : Regex := Regex.rep r 0 none false
def rrep (r : Regex) (lo hi : Nat) : Regex := Regex.rep r lo (some hi) true
def ratLeast (r : Regex) (lo : Nat) : Regex := Regex.rep r lo none true

/-- The class `.` (any character but a newline; `re.DOTALL` is never set). -/
def dotC : Regex := Regex.cls (fun c => c != '\n')

def digitC : Regex := Regex.cls Char.isDigit
def spaceC : Regex := Regex.cls isPySpace

/-! ## The patterns of `InvoiceProcessor` (`app.py`), transcribed one by one.
Each definition carries the original pattern as a comment.  All of them are
compiled with `re.IGNORECASE`, so classes written `[A-Z...]` accept both
cases and literals are case-insensitive. -/

/-- Class `[A-Z0-9\-\/]` under IGNORECASE. -/
def invNumCls : Regex := Regex.cls (fun c => c.isAlphanum || c = '-' || c = '/')

/-- Class `[0-9,]`. -/
def digitCommaC : Regex := Regex.cls (fun c => c.isDigit || c = ',')

/-- Class `[\/\-\.]`. -/
def dateSepC : Regex := Regex.cls (fun c => c = '/' || c = '-' || c = '.')

/-- Class `[A-Za-z\s&\.\-,]`. -/
def nameC : Regex :=
  Regex.cls (fun c => c.isAlpha || isPySpace c || c = '&' || c = '.' || c = '-' || c = ',')

/-- Class `[A-Za-z\s\.\-,]`. -/
def addrC : Regex :=
  Regex.cls (fun c => c.isAlpha || isPySpace c || c = '.' || c = '-' || c = ',')

/-- Class `[A-Za-z\s]`. -/
def alphaSpaceC : Regex := Regex.cls (fun c => c.isAlpha || isPySpace c)

/-- Class `[\d\s\-\(\)]`. -/
def phoneC : Regex :=
  Regex.cls (fun c => c.isDigit || isPySpace c || c = '-' || c = '(' || c = ')')

/-- Class `[a-zA-Z0-9._%+-]`. -/
def emailLocalC : Regex :=
  Regex.cls (fun c => c.isAlphanum || c = '.' || c = '_' || c = '%' || c = '+' || c = '-')

/-- Class `[a-zA-Z0-9.-]`. -/
def emailDomC : Regex := Regex.cls (fun c => c.isAlphanum || c = '.' || c = '-')

/-- Class `[A-Za-z]` / `[A-Z]` under IGNORECASE. -/
def alphaC : Regex := Regex.cls Char.isAlpha

/-- Class `[A-Z0-9\-]` under IGNORECASE. -/
def codeC : Regex := Regex.cls (fun c => c.isAlphanum || c = '-')

/-- Class `[-=_]`. -/
def sepRunC : Regex := Regex.cls (fun c => c = '-' || c = '=' || c = '_')

/-- The amount group `([0-9,]+\.?\d{0,2})` numbered `i`. -/
def amountGroup (i : Nat) : Regex :=
  Regex.group i (rseq [rplus digitCommaC, ropt (rchar '.'), rrep digitC 0 2])

/-- Pattern `LABEL\s*#?\s*:?\s*([A-Z0-9\-\/]+)` — shape of the invoice-number patterns. -/
def invNumAfter (label : Regex) : Regex :=
  rseq [label, rstar spaceC, ropt (rchar '#'), rstar spaceC, ropt (rchar ':'),
        rstar spaceC, Regex.group 1 (rplus invNumCls)]

/-- The table entry `self.patterns["invoice_number"]`, in order. -/
def invoiceNumberPats : List Regex :=
  [ -- invoice\s*#?\s*:?\s*([A-Z0-9\-\/]+)
    invNumAfter (rlit "invoice"),
    -- inv\s*#?\s*:?\s*([A-Z0-9\-\/]+)
    invNumAfter (rlit "inv"),
    -- bill\s*#?\s*:?\s*([A-Z0-9\-\/]+)
    invNumAfter (rlit "bill"),
    -- receipt\s*#?\s*:?\s*([A-Z0-9\-\/]+)
    invNumAfter (rlit "receipt"),
    -- #\s*([A-Z0-9\-\/]+)
    rseq [rchar '#', rstar spaceC, Regex.group 1 (rplus invNumCls)],
    -- invoice\s*no\.?\s*:?\s*([A-Z0-9\-\/]+)
    rseq [rlit "invoice", rstar spaceC, rlit "no", ropt (rchar '.'), rstar spaceC,
          ropt (rchar ':'), rstar spaceC, Regex.group 1 (rplus invNumCls)] ]

/-- Pattern `(\d{1,2}[\/\-\.]\d{1,2}[\/\-\.]\d{2,4})`. -/
def dmyDateGroup : Regex :=
  Regex.group 1 (rseq [rrep digitC 1 2, dateSepC, rrep digitC 1 2, dateSepC, rrep digitC 2 4])

/-- Pattern `(\d{4}-\d{2}-\d{2})`. -/
def isoDateGroup : Regex :=
  Regex.group 1 (rseq [rrep digitC 4 4, rchar '-', rrep digitC 2 2, rchar '-', rrep digitC 2 2])

/-- The table entry `self.patterns["date"]`, in order. -/
def datePats : List Regex :=
  [ -- date\s*:?\s*(\d{1,2}[\/\-\.]\d{1,2}[\/\-\.]\d{2,4})
    rseq [rlit "date", rstar spaceC, ropt (rchar ':'), rstar spaceC, dmyDateGroup],
    -- invoice\s*date\s*:?\s*(...)
    rseq [rlit "invoice", rstar spaceC, rlit "date", rstar spaceC, ropt (rchar ':'),
          rstar spaceC, dmyDateGroup],
    -- bill\s*date\s*:?\s*(...)
    rseq [rlit "bill", rstar spaceC, rlit "date", rstar spaceC, ropt (rchar ':'),
          rstar spaceC, dmyDateGroup],
    -- (\d{4}-\d{2}-\d{2})
    isoDateGroup,
    -- (\d{1,2}[\/\-\.]\d{1,2}[\/\-\.]\d{2,4})
    dmyDateGroup ]

/-- Pattern `LABEL\s*:?\s*₹?\$?€?£?([0-9,]+\.?\d{0,2})` — shape of the total patterns. -/
def totalAfter (label : Regex) : Regex :=
  rseq [label, rstar spaceC, ropt (rchar ':'), rstar spaceC, ropt (rchar '₹'),
        ropt (rchar '$'), ropt (rchar '€'), ropt (rchar '£'), amountGroup 1]

/-- The table entry `self.patterns["total"]`, in order. -/
def totalPats : List Regex :=
  [ totalAfter (rlit "total"),
    totalAfter (rseq [rlit "amount", rstar spaceC, rlit "due"]),
    totalAfter (rseq [rlit "grand", rstar spaceC, rlit "total"]),
    totalAfter (rseq [rlit "net", rstar spaceC, rlit "amount"]),
    totalAfter (rseq [rlit "balance", rstar spaceC, rlit "due"]) ]

/-- Pattern `(?:Inc|LLC|Corp|Ltd|Co|Company|Corporation|Limited|Pvt|Private|LLP|Partnership)`. -/
def companySuffixAlt : Regex :=
  raltL [rlit "Inc", rlit "LLC", rlit "Corp", rlit "Ltd", rlit "Co", rlit "Company",
         rlit "Corporation", rlit "Limited", rlit "Pvt", rlit "Private", rlit "LLP",
         rlit "Partnership"]

/-- The table entry `self.patterns["vendor"]`, in order (used as the stage-2 fallback of
`_extract_vendor_name`, with IGNORECASE|MULTILINE on the original text). -/
def vendorPats : List Regex :=
  [ -- ^([A-Z][A-Za-z\s&\.\-,]+(?:Inc|...|Partnership)\.?)
    Regex.seq Regex.bol
      (Regex.group 1 (rseq [alphaC, rplus nameC, companySuffixAlt, ropt (rchar '.')])),
    -- ^([A-Z][A-Za-z\s&\.\-,]{5,50})
    Regex.seq Regex.bol (Regex.group 1 (rseq [alphaC, rrep nameC 5 50])),
    -- (?:from|bill\s*from)\s*:?\s*([A-Z][A-Za-z\s&\.\-,]+)
    rseq [raltL [rlit "from", rseq [rlit "bill", rstar spaceC, rlit "from"]],
          rstar spaceC, ropt (rchar ':'), rstar spaceC,
          Regex.group 1 (rseq [alphaC, rplus nameC])],
    -- (?:vendor|supplier)\s*:?\s*([A-Z][A-Za-z\s&\.\-,]+)
    rseq [raltL [rlit "vendor", rlit "supplier"],
          rstar spaceC, ropt (rchar ':'), rstar spaceC,
          Regex.group 1 (rseq [alphaC, rplus nameC])] ]

/-- Pattern `(?:Street|St|Avenue|Ave|Road|Rd|Lane|Ln|Drive|Dr|Boulevard|Blvd)`. -/
def streetSuffixAlt : Regex :=
  raltL [rlit "Street", rlit "St", rlit "Avenue", rlit "Ave", rlit "Road", rlit "Rd",
         rlit "Lane", rlit "Ln", rlit "Drive", rlit "Dr", rlit "Boulevard", rlit "Blvd"]

/-- The table entry `self.patterns["vendor_address"]`, in order. -/
def vendorAddressPats : List Regex :=
  [ -- (\d+\s+[A-Za-z\s\.\-,]+(?:Street|...|Blvd))
    Regex.group 1 (rseq [rplus digitC, rplus spaceC, rplus addrC, streetSuffixAlt]),
    -- (P\.?O\.?\s*Box\s+\d+)
    Regex.group 1 (rseq [rlit "P", ropt (rchar '.'), rlit "O", ropt (rchar '.'),
                         rstar spaceC, rlit "Box", rplus spaceC, rplus digitC]),
    -- ([A-Z][A-Za-z\s\.\-,]+,\s*[A-Z][A-Za-z\s]+,\s*\d{5,6})
    Regex.group 1 (rseq [alphaC, rplus addrC, rchar ',', rstar spaceC, alphaC,
                         rplus alphaSpaceC, rchar ',', rstar spaceC, rrep digitC 5 6]) ]

/-- The table entry `self.patterns["vendor_phone"]`, in order. -/
def vendorPhonePats : List Regex :=
  [ -- (?:phone|tel|mobile|contact)\s*:?\s*([+]?[\d\s\-\(\)]{10,15})
    rseq [raltL [rlit "phone", rlit "tel", rlit "mobile", rlit "contact"],
          rstar spaceC, ropt (rchar ':'), rstar spaceC,
          Regex.group 1 (rseq [ropt (rchar '+'), rrep phoneC 10 15])],
    -- ([+]?[\d\s\-\(\)]{10,15})
    Regex.group 1 (rseq [ropt (rchar '+'), rrep phoneC 10 15]) ]

/-- The table entry `self.patterns["vendor_email"]`. -/
def vendorEmailPats : List Regex :=
  [ -- ([a-zA-Z0-9._%+-]+@[a-zA-Z0-9.-]+\.[a-zA-Z]{2,})
    Regex.group 1 (rseq [rplus emailLocalC, rchar '@', rplus emailDomC, rchar '.',
                         ratLeast alphaC 2]) ]

/-- The table entry `self.patterns["customer"]`, in order. -/
def customerPats : List Regex :=
  [ -- (?:bill\s*to|customer|client)\s*:?\s*([A-Z][A-Za-z\s&\.\-,]+)
    rseq [raltL [rseq [rlit "bill", rstar spaceC, rlit "to"], rlit "customer", rlit "client"],
          rstar spaceC, ropt (rchar ':'), rstar spaceC,
          Regex.group 1 (rseq [alphaC, rplus nameC])],
    -- (?:ship\s*to|deliver\s*to)\s*:?\s*([A-Z][A-Za-z\s&\.\-,]+)
    rseq [raltL [rseq [rlit "ship", rstar spaceC, rlit "to"],
                 rseq [rlit "deliver", rstar spaceC, rlit "to"]],
          rstar spaceC, ropt (rchar ':'), rstar spaceC,
          Regex.group 1 (rseq [alphaC, rplus nameC])] ]

/-- The quantity shape `\d+(?:\.\d+)?`. -/
def qtyNum : Regex := rseq [rplus digitC, ropt (rseq [rchar '.', rplus digitC])]

/-- Pattern `(?:₹|€|£)?` — the optional currency glyph of the line-item patterns. -/
def curOpt : Regex := ropt (raltL [rchar '₹', rchar '€', rchar '£'])

/-- Pattern `(?:GST|VAT|TAX|CGST|SGST|IGST|UTGST)`. -/
def taxKw : Regex :=
  raltL [rlit "GST", rlit "VAT", rlit "TAX", rlit "CGST", rlit "SGST", rlit "IGST",
         rlit "UTGST"]

/-- Pattern `(?:charge|fee|discount|shipping|handling|delivery)`. -/
def serviceKw : Regex :=
  raltL [rlit "charge", rlit "fee", rlit "discount", rlit "shipping", rlit "handling",
         rlit "delivery"]

/-- Line pattern 1: `^(\d+(?:\.\d+)?)\s+(.+?)\s+(?:₹|€|£)?([0-9,]+\.?\d{0,2})$`
(Qty Description Amount). -/
def lineItemPat1 : Regex :=
  rseq [Regex.bol, Regex.group 1 qtyNum, rplus spaceC, Regex.group 2 (lazyPlus dotC),
        rplus spaceC, curOpt, amountGroup 3, Regex.eol]

/-- Line pattern 2:
`^(.+?)\s+(\d+(?:\.\d+)?)\s+(?:₹|€|£)?([0-9,]+\.?\d{0,2})\s+(?:₹|€|£)?([0-9,]+\.?\d{0,2})$`
(Description Qty Unit price Total). -/
def lineItemPat2 : Regex :=
  rseq [Regex.bol, Regex.group 1 (lazyPlus dotC), rplus spaceC, Regex.group 2 qtyNum,
        rplus spaceC, curOpt, amountGroup 3, rplus spaceC, curOpt, amountGroup 4,
        Regex.eol]

/-- Line pattern 3:
`^([A-Z0-9\-]+)\s+(.+?)\s+(\d+(?:\.\d+)?)\s+(?:₹|€|£)?([0-9,]+\.?\d{0,2})$`
(Product code Description Qty Amount). -/
def lineItemPat3 : Regex :=
  rseq [Regex.bol, Regex.group 1 (rplus codeC), rplus spaceC,
        Regex.group 2 (lazyPlus dotC), rplus spaceC, Regex.group 3 qtyNum,
        rplus spaceC, curOpt, amountGroup 4, Regex.eol]

/-- Line pattern 4:
`^(.+?(?:GST|VAT|TAX|CGST|SGST|IGST|UTGST).*?)\s+(?:₹|€|£)?([0-9,]+\.?\d{0,2})$`
(tax lines). -/
def lineItemPat4 : Regex :=
  rseq [Regex.bol, Regex.group 1 (rseq [lazyPlus dotC, taxKw, lazyStar dotC]),
        rplus spaceC, curOpt, amountGroup 2, Regex.eol]

/-- Line pattern 5:
`^(.+?(?:charge|fee|discount|shipping|handling|delivery).*?)\s+(?:₹|€|£)?([0-9,]+\.?\d{0,2})$`
(service charges, fees, discounts). -/
def lineItemPat5 : Regex :=
  rseq [Regex.bol, Regex.group 1 (rseq [lazyPlus dotC, serviceKw, lazyStar dotC]),
        rplus spaceC, curOpt, amountGroup 2, Regex.eol]

/-- Line pattern 6: `^(.+?)\s+(?:₹|€|£)?([0-9,]+\.?\d{0,2})$` (generic
amount at end of line; catch-all). -/
def lineItemPat6 : Regex :=
  rseq [Regex.bol, Regex.group 1 (lazyPlus dotC), rplus spaceC, curOpt, amountGroup 2,
        Regex.eol]

/-- The six line-shape patterns of `extract_line_items`, in priority order. -/
def lineItemPats : List Regex :=
  [lineItemPat1, lineItemPat2, lineItemPat3, lineItemPat4, lineItemPat5, lineItemPat6]

/-- The skip patterns of `extract_line_items` (headers, footers, separators). -/
def skipPats : List Regex :=
  [ -- ^(qty|quantity|description|amount|total|subtotal|item|product).*$
    rseq [Regex.bol,
          Regex.group 1 (raltL [rlit "qty", rlit "quantity", rlit "description",
                                rlit "amount", rlit "total", rlit "subtotal",
                                rlit "item", rlit "product"]),
          rstar dotC, Regex.eol],
    -- ^(invoice|bill|receipt|order).*$
    rseq [Regex.bol,
          Regex.group 1 (raltL [rlit "invoice", rlit "bill", rlit "receipt", rlit "order"]),
          rstar dotC, Regex.eol],
    -- ^(page|continued|terms|conditions).*$
    rseq [Regex.bol,
          Regex.group 1 (raltL [rlit "page", rlit "continued", rlit "terms",
                                rlit "conditions"]),
          rstar dotC, Regex.eol],
    -- ^(thank you|thanks|signature|authorized).*$
    rseq [Regex.bol,
          Regex.group 1 (raltL [rlit "thank you", rlit "thanks", rlit "signature",
                                rlit "authorized"]),
          rstar dotC, Regex.eol],
    -- ^\s*[-=_]+\s*$  (separator lines)
    rseq [Regex.bol, rstar spaceC, rplus sepRunC, rstar spaceC, Regex.eol],
    -- ^\s*\d+\s*$  (lone numbers)
    rseq [Regex.bol, rstar spaceC, rplus digitC, rstar spaceC, Regex.eol] ]

/-- Pattern `\s+` — used by `_clean_description`. -/
def wsPlusPat : Regex := rplus spaceC

/-- Pattern `^(item|product|service):\s*` (IGNORECASE) — used by `_clean_description`. -/
def labelPrefixPat : Regex :=
  rseq [Regex.bol, Regex.group 1 (raltL [rlit "item", rlit "product", rlit "service"]),
        rchar ':', rstar spaceC]

/-- Pattern `\b\d{5,6}\b` — postal code, used by `_convert_regex_to_structured`. -/
def postalPat : Regex := rseq [Regex.wb, rrep digitC 5 6, Regex.wb]

/-! ## FieldExtractor: `InvoiceProcessor.extract_field` -/

/-- The pattern table `self.patterns` (`patterns.get(field_type, [])`). -/
def fieldPatterns (fieldType : String) : List Regex :=
  if fieldType = "invoice_number" then invoiceNumberPats
  else if fieldType = "date" then datePats
  else if fieldType = "total" then totalPats
  else if fieldType = "vendor" then vendorPats
  else if fieldType = "vendor_address" then vendorAddressPats
  else if fieldType = "vendor_phone" then vendorPhonePats
  else if fieldType = "vendor_email" then vendorEmailPats
  else if fieldType = "customer" then customerPats
  else []

/-- First pattern (in priority order) that matches anywhere: return
`match.group(1).strip()`.  `re.IGNORECASE | re.MULTILINE` throughout. -/
def firstCapture : List Regex → String → Option String
  | [], _ => none
  | r :: rest, t =>
    match reSearch true r t with
    | some m => some (pyStrip (grp m 1))
    | none => firstCapture rest t

/-- The skip words of the vendor header scan. -/
def vendorSkipWords : List String :=
  ["invoice", "bill", "receipt", "tax", "date", "number", "page"]

/-- The company indicators of the vendor header scan. -/
def companyIndicators : List String :=
  ["inc", "llc", "corp", "ltd", "co", "company", "corporation", "limited", "pvt", "private"]

/-- The cleaning step of the header scan:
`re.sub(r'[^\w\s&\.\-,]', '', line).strip()` — the class is one character,
so the substitution is a character filter. -/
def vendorHeaderClean (line : String) : String :=
  pyStrip (String.mk (line.data.filter
    (fun c => isWordChar c || isPySpace c || c = '&' || c = '.' || c = '-' || c = ',')))

/-- Stage 1 of `_extract_vendor_name`: the scan over the header lines
(the caller passes `lines[:10]`).  A line is skipped when blank or shorter
than 3 characters, when it contains a boilerplate word, when it looks like
neither a company name nor a proper name, or when its cleaned form is not
longer than 3 characters. -/
def vendorHeaderScan : List String → Option String
  | [] => none
  | l :: rest =>
    let line := pyStrip l
    -- `if not line or len(line) < 3: continue` (empty implies length 0 < 3)
    if line.length < 3 then vendorHeaderScan rest
    else if vendorSkipWords.any (fun w => containsWord (pyLower line) w) then
      vendorHeaderScan rest
    else if companyIndicators.any (fun w => containsWord (pyLower line) w)
        || (decide (line.length > 5) && (line.data.headD ' ').isUpper
            && !pyIsDigit line) then
      let cleaned := vendorHeaderClean line
      if cleaned.length > 3 then some cleaned else vendorHeaderScan rest
    else vendorHeaderScan rest

/-- Model of `InvoiceProcessor._extract_vendor_name`: header scan over the first 10
lines, then the `vendor` pattern cascade over the original text. -/
def extract_vendor_name (text : String) : Option String :=
  match vendorHeaderScan ((text.splitOn "\n").take 10) with
  | some v => some v
  | none => firstCapture vendorPats text

/-- Model of `InvoiceProcessor.extract_field`: vendor dispatches to the header
heuristic; every other field lower-cases the text and takes the first
matching pattern's first group, stripped. -/
def extract_field (text fieldType : String) : Option String :=
  if fieldType = "vendor" then extract_vendor_name text
  else firstCapture (fieldPatterns fieldType) (pyLower text)

/-! ## LineItemParser: `extract_line_items` and helpers -/

/-- The draft line-item dictionary produced by `_parse_line_item`. -/
structure DraftLineItem where
  item_type : String
  quantity : Rat
  description : String
  unit_price : Option Rat
  amount : Rat
  product_code : Option String := none
  original_line : String
  formatted_amount : String := ""
  formatted_quantity : String := ""
  deriving DecidableEq, Repr

/-- Model of `InvoiceProcessor._clean_description`. -/
def clean_description (description : String) : String :=
  if description = "" then ""
  else
    -- re.sub(r'\s+', ' ', description.strip())
    let d := rsub false wsPlusPat " " (pyStrip description)
    -- re.sub(r'^(item|product|service):\s*', '', description, flags=re.IGNORECASE)
    let d := rsub false labelPrefixPat "" d
    -- capitalize the first letter
    match d.data with
    | [] => d
    | c :: t => String.mk (c.toUpper :: t)

/-- Model of `InvoiceProcessor._clean_amount`:
`re.sub(r'[^\d\.-]', '', str(s))` is a character filter (the class is one
character); `float` failures default to `0.0`. -/
def clean_amount (amountStr : String) : Rat :=
  if amountStr = "" then 0
  else
    let cleaned := String.mk (amountStr.data.filter
      (fun c => c.isDigit || c = '.' || c = '-'))
    match parsePyFloat cleaned with
    | some v => v
    | none => 0

/-- Model of `InvoiceProcessor._parse_line_item` — build a draft from the match of
pattern `patternType` (1-based).  `float(...)` raising `ValueError` makes
the whole item `None`; the quantity groups always parse, but the guard is
kept. -/
def parse_line_item (m : MatchRes) (patternType : Nat) (originalLine : String) :
    Option DraftLineItem :=
  if patternType = 1 then
    -- Qty Description Amount
    match parsePyFloat (grp m 1) with
    | none => none
    | some q => some { item_type := "product", quantity := q,
                       description := clean_description (grp m 2), unit_price := none,
                       amount := clean_amount (grp m 3), original_line := originalLine }
  else if patternType = 2 then
    -- Description Qty Unit_Price Total
    match parsePyFloat (grp m 2) with
    | none => none
    | some q => some { item_type := "product", quantity := q,
                       description := clean_description (grp m 1),
                       unit_price := some (clean_amount (grp m 3)),
                       amount := clean_amount (grp m 4), original_line := originalLine }
  else if patternType = 3 then
    -- Product code Description Qty Amount
    match parsePyFloat (grp m 3) with
    | none => none
    | some q => some { item_type := "product", product_code := some (grp m 1),
                       quantity := q, description := clean_description (grp m 2),
                       unit_price := none, amount := clean_amount (grp m 4),
                       original_line := originalLine }
  else if patternType = 4 then
    -- Tax lines
    some { item_type := "tax", quantity := 1,
           description := clean_description (grp m 1), unit_price := none,
           amount := clean_amount (grp m 2), original_line := originalLine }
  else if patternType = 5 then
    -- Service charges
    some { item_type := "service", quantity := 1,
           description := clean_description (grp m 1), unit_price := none,
           amount := clean_amount (grp m 2), original_line := originalLine }
  else if patternType = 6 then
    -- Generic amount
    some { item_type := "other", quantity := 1,
           description := clean_description (grp m 1), unit_price := none,
           amount := clean_amount (grp m 2), original_line := originalLine }
  else none

/-- Model of `InvoiceProcessor._validate_line_item`, with the source's check order. -/
def validate_line_item (item : DraftLineItem) : Bool :=
  if item.description = "" then false
  else if item.amount < 0 ∨ item.amount > 999999 then false
  else if item.quantity < 0 ∨ item.quantity > 10000 then false
  else if item.description.length < 3 then false
  else true

/-- Try each line pattern in priority order (`for i, pattern in
enumerate(patterns)`), returning the 1-based index of the first match. -/
def firstLineMatch : Nat → List Regex → String → Option (Nat × MatchRes)
  | _, [], _ => none
  | i, r :: rest, l =>
    match reSearch false r l with
    | some m => some (i, m)
    | none => firstLineMatch (i + 1) rest l

/-- One iteration of the line loop of `extract_line_items`: strip, skip
blank/short lines and header/footer lines, then let the first matching
pattern produce a draft, kept only if it validates. -/
def processLine (rawLine : String) : Option DraftLineItem :=
  let line := pyStrip rawLine
  -- `if not line or len(line) < 5: continue`
  if line.length < 5 then none
  else if skipPats.any (fun p => (reSearch false p line).isSome) then none
  else
    match firstLineMatch 1 lineItemPats line with
    | none => none
    | some (i, m) =>
      match parse_line_item m i line with
      | none => none
      | some item => if validate_line_item item then some item else none

/-- The categorization buckets of `_categorize_line_items`. -/
inductive Bucket where
  | products
  | services
  | taxes
  | discounts
  | other
  deriving DecidableEq, Repr

def taxWords : List String := ["gst", "vat", "tax", "cgst", "sgst", "igst", "utgst"]

def serviceWords : List String := ["shipping", "delivery", "handling", "fee", "charge"]

/-- The if/elif classification chain of `_categorize_line_items`. -/
def bucketOf (item : DraftLineItem) : Bucket :=
  if item.item_type = "tax"
      || taxWords.any (fun w => containsWord (pyLower item.description) w) then .taxes
  else if containsWord (pyLower item.description) "discount"
      || decide (item.amount < 0) then .discounts
  else if item.item_type = "service"
      || serviceWords.any (fun w => containsWord (pyLower item.description) w) then .services
  else if item.item_type = "product" then .products
  else .other

/-- The formatting step of `_categorize_line_items`:
`formatted_amount = f"₹{amount:.2f}"`, and the quantity printed without
decimals exactly when it is an integer (`quantity == int(quantity)`). -/
def add_formatted (item : DraftLineItem) : DraftLineItem :=
  { item with
    formatted_amount := "₹" ++ ratToFixed item.amount 2,
    formatted_quantity :=
      if item.quantity.den = 1 then ratToFixed item.quantity 0
      else ratToFixed item.quantity 2 }

/-- Model of `InvoiceProcessor._categorize_line_items`: the per-bucket append loop
is order-preserving, so each bucket is the sublist of items classified
into it; the returned flat list concatenates the buckets in the fixed
order products, services, taxes, discounts, other, each item annotated
with its formatted fields.  (The internal `summary` dictionary of this
function is discarded by its only caller and not modelled.) -/
def categorize_line_items (items : List DraftLineItem) : List DraftLineItem :=
  let all_items :=
    (items.filter fun it => bucketOf it = Bucket.products)
    ++ (items.filter fun it => bucketOf it = Bucket.services)
    ++ (items.filter fun it => bucketOf it = Bucket.taxes)
    ++ (items.filter fun it => bucketOf it = Bucket.discounts)
    ++ (items.filter fun it => bucketOf it = Bucket.other)
  all_items.map add_formatted

/-- Model of `InvoiceProcessor.extract_line_items`. -/
def extract_line_items (text : String) : List DraftLineItem :=
  categorize_line_items ((text.splitOn "\n").filterMap processLine)

/-! ## The data model of `structured_data.py`.
The dataclass field `extracted_at` (a wall-clock timestamp) is omitted:
it is non-deterministic and no derivation or claim reads it. -/

structure Address where
  street : Option String := none
  city : Option String := none
  state : Option String := none
  postal_code : Option String := none
  country : Option String := none
  deriving DecidableEq, Repr

structure Contact where
  phone : Option String := none
  email : Option String := none
  website : Option String := none
  deriving DecidableEq, Repr

structure InvoiceMetadata where
  invoice_number : Option String := none
  invoice_date : Option String := none
  due_date : Option String := none
  po_number : Option String := none
  currency : Option String := some "USD"
  language : Option String := some "en"
  deriving DecidableEq, Repr

structure VendorDetails where
  name : Option String := none
  address : Address := {}
  contact : Contact := {}
  tax_id : Option String := none
  registration_number : Option String := none
  deriving DecidableEq, Repr

structure CustomerDetails where
  name : Option String := none
  address : Address := {}
  contact : Contact := {}
  customer_id : Option String := none
  deriving DecidableEq, Repr

structure LineItem where
  item_id : Option String := none
  description : Option String := none
  quantity : Rat := 0
  unit_price : Option Rat := none
  unit_type : Option String := none
  subtotal : Rat := 0
  tax_rate : Rat := 0
  tax_amount : Rat := 0
  total : Rat := 0
  category : String := "other"
  deriving DecidableEq, Repr

structure TaxBreakdown where
  tax_type : String
  rate : Rat
  amount : Rat
  description : Option String := none
  deriving DecidableEq, Repr

structure Summary where
  subtotal : Rat := 0
  tax_breakdown : List TaxBreakdown := []
  total_tax : Rat := 0
  discounts : Rat := 0
  shipping : Rat := 0
  grand_total : Rat := 0
  deriving DecidableEq, Repr

structure BankDetails where
  account_name : Option String := none
  account_number : Option String := none
  routing_number : Option String := none
  iban : Option String := none
  swift_code : Option String := none
  deriving DecidableEq, Repr

structure PaymentTerms where
  terms : Option String := none
  payment_methods : List String := []
  bank_details : BankDetails := {}
  deriving DecidableEq, Repr

structure AdditionalInfo where
  notes : Option String := none
  terms_conditions : Option String := none
  reference_numbers : List String := []
  deriving DecidableEq, Repr

structure ExtractionMetadata where
  method : String := "unknown"
  model : Option String := none
  confidence_score : Option Rat := none
  processing_time : Option Rat := none
  fallback_used : Bool := false
  errors : List String := []
  deriving DecidableEq, Repr

structure StructuredInvoiceData where
  extraction_metadata : ExtractionMetadata := {}
  invoice_metadata : InvoiceMetadata := {}
  vendor_details : VendorDetails := {}
  customer_details : CustomerDetails := {}
  line_items : List LineItem := []
  summary : Summary := {}
  payment_terms : PaymentTerms := {}
  additional_info : AdditionalInfo := {}
  deriving DecidableEq, Repr

/-- Model of `LineItem.calculate_totals`: the three sequential mutations of the
source (`quantity`, `subtotal`, `tax_rate`, `tax_amount` are plain floats
in the dataclass, so the `is not None` guards on them always hold; only
`unit_price` is optional). -/
def LineItem.calculate_totals (it : LineItem) : LineItem :=
  let it := match it.unit_price with
    | some p => { it with subtotal := it.quantity * p }
    | none => it
  let it := if it.tax_rate > 0 then { it with tax_amount := it.subtotal * it.tax_rate }
    else it
  { it with total := it.subtotal + it.tax_amount }

/-- Model of `Summary.calculate_totals`: subtotal over the non-tax items, total tax
over all items, grand total from those plus shipping minus discounts
(the `or 0` coercions in the source are identities on these floats). -/
def Summary.calculate_totals (sm : Summary) (line_items : List LineItem) : Summary :=
  let subtotal := ((line_items.filter fun item => item.category ≠ "tax").map
    (fun item => item.subtotal)).sum
  let total_tax := (line_items.map fun item => item.tax_amount).sum
  { sm with subtotal := subtotal, total_tax := total_tax,
            grand_total := subtotal + total_tax + sm.shipping - sm.discounts }

/-- Model of `StructuredInvoiceData.calculate_all_totals`: refresh every line item,
then the summary from the refreshed items. -/
def StructuredInvoiceData.calculate_all_totals (d : StructuredInvoiceData) :
    StructuredInvoiceData :=
  let items := d.line_items.map LineItem.calculate_totals
  { d with line_items := items, summary := d.summary.calculate_totals items }

/-! ## ConfidenceScorer: `GeminiAIExtractor._calculate_confidence_score`.
The Python wraps the computation in `try/except` with default `0.5`; the
computation below is total, so the handler is dead in the model. -/

/-- Python truthiness of an optional string field. -/
def truthy : Option String → Bool
  | none => false
  | some s => s ≠ ""

/-- The raw 10-point completeness score (the sequential `score += ...`
of the source written as one sum, in the same order). -/
def rawConfidence (d : StructuredInvoiceData) : Rat :=
  (if truthy d.invoice_metadata.invoice_number then 1 else 0)
  + (if truthy d.invoice_metadata.invoice_date then 1 else 0)
  + (if truthy d.vendor_details.name then 1.5 else 0)
  + (if truthy d.vendor_details.address.street || truthy d.vendor_details.address.city
     then 1 else 0)
  + (if truthy d.vendor_details.contact.email || truthy d.vendor_details.contact.phone
     then 0.5 else 0)
  + (if d.line_items.length > 0 then
      1 + (let detailed := (d.line_items.filter fun item =>
              truthy item.description && decide (item.quantity > 0)).length
           if detailed > 0 then min 2 ((detailed : Rat) * 0.5) else 0)
     else 0)
  + (if d.summary.grand_total > 0 then 1 else 0)
  + (if d.summary.subtotal > 0 || d.summary.total_tax > 0 then 1 else 0)

/-- Model of `min(1.0, score / max_score)` with `max_score = 10.0`. -/
def calculate_confidence_score (d : StructuredInvoiceData) : Rat :=
  min 1 (rawConfidence d / 10)

/-! ## `InvoiceProcessor._convert_regex_to_structured` -/

/-- The currency-detection loop: the first pattern of
`{'₹': INR, '\x24': USD, '€': EUR, '£': GBP}` (insertion order) found in
the text wins; otherwise the dataclass default `USD` stands. -/
def detectCurrency (text : String) : Option String :=
  if text.contains '₹' then some "INR"
  else if text.contains '$' then some "USD"
  else if text.contains '€' then some "EUR"
  else if text.contains '£' then some "GBP"
  else none

/-- The vendor-address parsing block: split on commas, first part is the
street, second the city; with three or more parts the last is scanned for
`\b\d{5,6}\b` (postal code) and its remainder, stripped, becomes the
state. -/
def parseVendorAddress (va : String) : Address :=
  let parts := va.splitOn ","
  let a1 : Address := { street := some (pyStrip (parts.headD "")) }
  let a2 := if parts.length ≥ 2 then { a1 with city := some (pyStrip (parts[1]?.getD "")) }
    else a1
  if parts.length ≥ 3 then
    let lastPart := pyStrip (parts.getLastD "")
    match reSearch false postalPat lastPart with
    | some pm =>
      let a3 := { a2 with postal_code := some (String.mk pm.matched) }
      let stateCountry := pyStrip (rsub false postalPat "" lastPart)
      if stateCountry ≠ "" then { a3 with state := some stateCountry } else a3
    | none => a2
  else a2

/-- Everything `_convert_regex_to_structured` does before its final
`calculate_all_totals()` call.  `parseDate` stands for the external
`dateutil.parser.parse(...).strftime("%Y-%m-%d")` (out of the
specification's scope); `none` models its exception, in which case the
raw date string is kept, exactly as the `except` branch does. -/
def convertPreTotals (parseDate : String → Option String) (text : String) :
    StructuredInvoiceData :=
  let invoice_number := extract_field text "invoice_number"
  let date := extract_field text "date"
  let vendor_name := extract_field text "vendor"
  let total := extract_field text "total"
  let line_items := extract_line_items text
  let vendor_address := extract_field text "vendor_address"
  let vendor_phone := extract_field text "vendor_phone"
  let vendor_email := extract_field text "vendor_email"
  let customer_name := extract_field text "customer"
  let em : ExtractionMetadata :=
    { method := "regex_fallback", fallback_used := true, confidence_score := some 0.6 }
  let im : InvoiceMetadata :=
    { invoice_number := invoice_number,
      invoice_date := match date with
        | none => none
        | some dt => if dt = "" then none else some ((parseDate dt).getD dt),
      currency := some ((detectCurrency text).getD "USD") }
  let contact : Contact :=
    { email := if truthy vendor_email then vendor_email else none,
      phone := if truthy vendor_phone then vendor_phone else none }
  let address : Address := match vendor_address with
    | none => {}
    | some va => if va = "" then {} else parseVendorAddress va
  let sItems := line_items.map fun item =>
    LineItem.calculate_totals
      { description := some item.description, quantity := item.quantity,
        unit_price := item.unit_price, subtotal := item.amount,
        total := item.amount, category := item.item_type }
  let sm1 : Summary := match total with
    | none => {}
    | some t =>
      if t = "" then {}
      else
        -- float(re.sub(r"[^\d\.]", "", total)); the class is one character,
        -- so the substitution is a character filter
        match parsePyFloat (String.mk (t.data.filter fun c => c.isDigit || c = '.')) with
        | some v => { grand_total := v }
        | none => {}
  let tax_items := line_items.filter fun item =>
    containsWord (pyLower item.description) "tax" || item.item_type = "tax"
  let sm2 := if tax_items.length > 0 then
      { sm1 with total_tax := (tax_items.map fun item => item.amount).sum }
    else sm1
  { extraction_metadata := em,
    invoice_metadata := im,
    vendor_details := { name := vendor_name, address := address, contact := contact },
    customer_details := if truthy customer_name then { name := customer_name } else {},
    line_items := sItems,
    summary := sm2 }

/-- Model of `_convert_regex_to_structured`: assemble, then derive all totals. -/
def convert_regex_to_structured (parseDate : String → Option String) (text : String) :
    StructuredInvoiceData :=
  (convertPreTotals parseDate text).calculate_all_totals

/-! ## ExtractionOrchestrator: `InvoiceProcessor._extract_with_ai_fallback` -/

/-- Observable behaviour of the smart-extraction adapter
(`self.gemini_extractor`) on one call: reporting itself unavailable,
raising (any exception is caught and logged by the orchestrator), or
returning an optional model with a method tag. -/
inductive AdapterOutcome where
  | unavailable
  | throws
  | returns (data : Option StructuredInvoiceData) (method : String)

/-- Model of `InvoiceProcessor._extract_with_ai_fallback`.  A returned model is
accepted exactly when its stored confidence exists and exceeds `0.3`
(when the score is `None` the Python comparison raises `TypeError`, which
the surrounding `except` absorbs, landing in the fallback; likewise the
logging f-string when no model came back).  Total by construction: the
Python never lets an exception escape this method. -/
def extract_with_ai_fallback (adapter : AdapterOutcome) (fallbackEnabled : Bool)
    (parseDate : String → Option String) (text : String) :
    Option StructuredInvoiceData × String :=
  let fallbackStep : Option StructuredInvoiceData × String :=
    if fallbackEnabled then (some (convert_regex_to_structured parseDate text), "regex_fallback")
    else (none, "extraction_failed")
  match adapter with
  | .returns (some d) m =>
    match d.extraction_metadata.confidence_score with
    | some c => if c > 0.3 then (some d, m) else fallbackStep
    | none => fallbackStep
  | _ => fallbackStep

/-- Adapter outcomes the claim C1 enumerates as triggering the fallback:
unavailable, raising, returning no model, or returning a model whose
stored confidence is at most 0.3. -/
def adapterNotAccepted : AdapterOutcome → Prop
  | .unavailable => True
  | .throws => True
  | .returns none _ => True
  | .returns (some d) _ =>
    ∃ c, d.extraction_metadata.confidence_score = some c ∧ c ≤ 0.3

/-- Adapter outcomes the orchestrator accepts: a returned model whose
stored confidence exists and exceeds 0.3. -/
def adapterAccepted : AdapterOutcome → Prop
  | .returns (some d) _ =>
    ∃ c, d.extraction_metadata.confidence_score = some c ∧ c > 0.3
  | _ => False

/-- The one item the parser produces on the witness text for C5. -/
def c5Item : DraftLineItem :=
  { item_type := "other", quantity := 1, description := "Consulting Services",
    unit_price := none, amount := 100, original_line := "Consulting Services 100.00",
    formatted_amount := "₹100.00", formatted_quantity := "1" }

/-- The draft determined for a line by the pattern loop of
`extract_line_items`: the first matching pattern (1-based priority order)
fed to `_parse_line_item` — the composition `processLine` applies after
its skip checks and before validation. -/
def lineDraft (l : String) : Option DraftLineItem :=
  (firstLineMatch 1 lineItemPats l).bind fun im => parse_line_item im.snd im.fst l

/-- The cleaning step the specification claims for stage 1 — every
character outside `[A-Za-z0-9 &.,-]` removed.  This definition follows the
specification's words, for comparison with `vendorHeaderClean`, which
follows the code (`re.sub(r'[^\w\s&\.\-,]', '', line).strip()`). -/
def specVendorClean (line : String) : String :=
  String.mk (line.data.filter fun c =>
    c.isAlpha || c.isDigit || c = ' ' || c = '&' || c = '.' || c = ',' || c = '-')

/-- The input text of the specification's scenario 1. -/
def scenarioText : String :=
  "Invoice #INV-2024-001\nDate: 2024-08-13\nACME Corp Inc.\nWeb Development Services 1 2500.00\nTotal: 2500.00"

/-! ## Theorems -/

/-- Helper: one derivation pass per line item is idempotent. -/
theorem LineItem.calculate_totals_idem (it : LineItem) :
    it.calculate_totals.calculate_totals = it.calculate_totals := by
  obtain ⟨iid, desc, q, up, ut, st, tr, ta, tot, cat⟩ := it
  cases up <;> by_cases h : tr > 0 <;>
    simp [LineItem.calculate_totals, h]

/-- Helper: refreshing already-refreshed line items changes nothing. -/
theorem map_calculate_totals_idem (l : List LineItem) :
    (l.map LineItem.calculate_totals).map LineItem.calculate_totals
      = l.map LineItem.calculate_totals := by
  induction l with
  | nil => rfl
  | cons a t ih => simp only [List.map_cons, LineItem.calculate_totals_idem, ih]

/-- C2.  For every `StructuredInvoiceData`, after `calculate_all_totals`
the summary satisfies: `subtotal` is the sum of `item.subtotal` over line
items whose category is not `"tax"`, `total_tax` is the sum of
`item.tax_amount` over all line items, and `grand_total` equals
`subtotal + total_tax + shipping − discounts` (exactly, in the
rational-arithmetic model that idealises floating tolerance). -/
theorem spec_C2_summary_invariant (d : StructuredInvoiceData) :
    ((d.calculate_all_totals).summary.subtotal
      = (((d.calculate_all_totals).line_items.filter fun item => item.category ≠ "tax").map
          (fun item => item.subtotal)).sum)
    ∧ ((d.calculate_all_totals).summary.total_tax
      = ((d.calculate_all_totals).line_items.map fun item => item.tax_amount).sum)
    ∧ ((d.calculate_all_totals).summary.grand_total
      = (d.calculate_all_totals).summary.subtotal
        + (d.calculate_all_totals).summary.total_tax
        + (d.calculate_all_totals).summary.shipping
        - (d.calculate_all_totals).summary.discounts) :=
  ⟨rfl, rfl, rfl⟩

/-- C6.  Total derivation is idempotent: a second
`calculate_all_totals` with no intervening field change reproduces the
state after the first call — every line item's subtotal, tax amount and
total, and every summary field, are identical (the whole aggregate is
equal). -/
theorem spec_C6_idempotent (d : StructuredInvoiceData) :
    d.calculate_all_totals.calculate_all_totals = d.calculate_all_totals := by
  obtain ⟨em, im, vd, cd, li, sm, pt, ai⟩ := d
  simp only [StructuredInvoiceData.calculate_all_totals, map_calculate_totals_idem,
    Summary.calculate_totals]

/-- C10.  In the regex fallback path the grand total read off the text's
`Total:` label (and the tax total summed from tax drafts) is overwritten
by the final total derivation: for every input text, the returned model's
`summary.grand_total` is the value recomputed from its own line items
(non-tax subtotal, plus all tax amounts, plus shipping, minus discounts),
regardless of the total stated in the text. -/
theorem spec_C10_grand_total_recomputed (parseDate : String → Option String)
    (text : String) :
    (convert_regex_to_structured parseDate text).summary.grand_total
      = (((convert_regex_to_structured parseDate text).line_items.filter
            fun item => item.category ≠ "tax").map (fun item => item.subtotal)).sum
        + ((convert_regex_to_structured parseDate text).line_items.map
            fun item => item.tax_amount).sum
        + (convert_regex_to_structured parseDate text).summary.shipping
        - (convert_regex_to_structured parseDate text).summary.discounts :=
  rfl

/-- C1.  Fallback law: whenever the smart adapter is unavailable, throws,
returns no model, or returns a model with confidence at most 0.3, and
pattern-based fallback is enabled, the extraction entry point returns a
model whose extraction metadata has method `"regex_fallback"`, confidence
score exactly 0.6, and `fallback_used = true`. -/
theorem spec_C1_fallback_law (adapter : AdapterOutcome)
    (parseDate : String → Option String) (text : String)
    (h : adapterNotAccepted adapter) :
    ∃ m, (extract_with_ai_fallback adapter true parseDate text).fst = some m
      ∧ (extract_with_ai_fallback adapter true parseDate text).snd = "regex_fallback"
      ∧ m.extraction_metadata.method = "regex_fallback"
      ∧ m.extraction_metadata.confidence_score = some 0.6
      ∧ m.extraction_metadata.fallback_used = true := by
  cases adapter with
  | unavailable => exact ⟨_, rfl, rfl, rfl, rfl, rfl⟩
  | throws => exact ⟨_, rfl, rfl, rfl, rfl, rfl⟩
  | returns data method =>
    cases data with
    | none => exact ⟨_, rfl, rfl, rfl, rfl, rfl⟩
    | some d =>
      obtain ⟨c, hc, hle⟩ := h
      refine ⟨convert_regex_to_structured parseDate text, ?_, ?_, rfl, rfl, rfl⟩ <;>
        simp [extract_with_ai_fallback, hc, not_lt.mpr hle]

/-- Witness for C1 at a concrete input: unavailable adapter, empty text. -/
theorem spec_C1_fallback_law_witness :
    adapterNotAccepted AdapterOutcome.unavailable
    ∧ ∃ m, (extract_with_ai_fallback AdapterOutcome.unavailable true (fun _ => none) "").fst
          = some m
        ∧ (extract_with_ai_fallback AdapterOutcome.unavailable true (fun _ => none) "").snd
          = "regex_fallback"
        ∧ m.extraction_metadata.method = "regex_fallback"
        ∧ m.extraction_metadata.confidence_score = some 0.6
        ∧ m.extraction_metadata.fallback_used = true :=
  ⟨True.intro, spec_C1_fallback_law AdapterOutcome.unavailable (fun _ => none) "" True.intro⟩

/-- C9.  Extraction exhausted: with fallback disabled and no accepted
smart result, the entry point returns the null model with method tag
`"extraction_failed"`.  The Lean function is total, which models the
"never raises" part: every exception the adapter can produce is absorbed
inside `extract_with_ai_fallback`. -/
theorem spec_C9_extraction_exhausted (adapter : AdapterOutcome)
    (parseDate : String → Option String) (text : String)
    (h : ¬ adapterAccepted adapter) :
    extract_with_ai_fallback adapter false parseDate text = (none, "extraction_failed") := by
  cases adapter with
  | unavailable => rfl
  | throws => rfl
  | returns data method =>
    cases data with
    | none => rfl
    | some d =>
      cases hc : d.extraction_metadata.confidence_score with
      | none => simp [extract_with_ai_fallback, hc]
      | some c =>
        have hle : ¬ c > 0.3 := fun hgt => h ⟨c, hc, hgt⟩
        simp [extract_with_ai_fallback, hc, hle]

/-- Witness for C9 at a concrete input: unavailable adapter, empty text. -/
theorem spec_C9_extraction_exhausted_witness :
    (¬ adapterAccepted AdapterOutcome.unavailable)
    ∧ extract_with_ai_fallback AdapterOutcome.unavailable false (fun _ => none) ""
        = (none, "extraction_failed") :=
  ⟨fun hf => hf,
   spec_C9_extraction_exhausted AdapterOutcome.unavailable (fun _ => none) "" (fun hf => hf)⟩

/-- Helper: a conditional award is nonnegative when both arms are. -/
theorem ite_nonneg {c : Prop} [Decidable c] {x y : Rat} (hx : 0 ≤ x) (hy : 0 ≤ y) :
    0 ≤ if c then x else y := by
  split <;> assumption

/-- Helper: every award of the raw confidence score is nonnegative. -/
theorem rawConfidence_nonneg (d : StructuredInvoiceData) : 0 ≤ rawConfidence d := by
  unfold rawConfidence
  refine add_nonneg (add_nonneg (add_nonneg (add_nonneg (add_nonneg (add_nonneg
    (add_nonneg ?_ ?_) ?_) ?_) ?_) ?_) ?_) ?_ <;>
    exact ite_nonneg (by positivity) le_rfl

/-- Helper: the published score is `min 1 (raw / 10)`, hence in `[0, 1]`. -/
theorem confidence_score_bounds (d : StructuredInvoiceData) :
    0 ≤ calculate_confidence_score d ∧ calculate_confidence_score d ≤ 1 := by
  constructor
  · exact le_min (by norm_num) (div_nonneg (rawConfidence_nonneg d) (by norm_num))
  · exact min_le_left _ _

/-- C7.  The confidence scorer is monotone in completeness: filling in a
previously null invoice number with a non-empty string never lowers the
score, and both scores lie in `[0, 1]`. -/
theorem spec_C7_monotone_confidence (d d2 : StructuredInvoiceData) (s : String)
    (h0 : d.invoice_metadata.invoice_number = none) (hs : s ≠ "")
    (h2 : d2 = { d with invoice_metadata :=
                   { d.invoice_metadata with invoice_number := some s } }) :
    calculate_confidence_score d ≤ calculate_confidence_score d2
    ∧ 0 ≤ calculate_confidence_score d ∧ calculate_confidence_score d ≤ 1
    ∧ 0 ≤ calculate_confidence_score d2 ∧ calculate_confidence_score d2 ≤ 1 := by
  refine ⟨?_, (confidence_score_bounds d).1, (confidence_score_bounds d).2,
          (confidence_score_bounds d2).1, (confidence_score_bounds d2).2⟩
  subst h2
  obtain ⟨em, im, vd, cd, li, sm, pt, ai⟩ := d
  obtain ⟨inum, idate, dd, po, cur, lang⟩ := im
  simp only [InvoiceMetadata.mk.injEq] at h0 ⊢
  subst h0
  unfold calculate_confidence_score
  gcongr min 1 (?_ / 10)
  unfold rawConfidence
  simp [truthy, hs]

/-- Witness for C7 at a concrete input: the empty model against the same
model with invoice number `"INV-1"`. -/
theorem spec_C7_monotone_confidence_witness :
    ((({} : StructuredInvoiceData).invoice_metadata.invoice_number = none)
      ∧ ("INV-1" : String) ≠ ""
      ∧ ({ ({} : StructuredInvoiceData) with invoice_metadata :=
             { ({} : StructuredInvoiceData).invoice_metadata with
                 invoice_number := some "INV-1" } } : StructuredInvoiceData)
          = { ({} : StructuredInvoiceData) with invoice_metadata :=
                { ({} : StructuredInvoiceData).invoice_metadata with
                    invoice_number := some "INV-1" } })
    ∧ (calculate_confidence_score {}
        ≤ calculate_confidence_score
            { ({} : StructuredInvoiceData) with invoice_metadata :=
                { ({} : StructuredInvoiceData).invoice_metadata with
                    invoice_number := some "INV-1" } }
      ∧ 0 ≤ calculate_confidence_score ({} : StructuredInvoiceData)
      ∧ calculate_confidence_score ({} : StructuredInvoiceData) ≤ 1
      ∧ 0 ≤ calculate_confidence_score
            { ({} : StructuredInvoiceData) with invoice_metadata :=
                { ({} : StructuredInvoiceData).invoice_metadata with
                    invoice_number := some "INV-1" } }
      ∧ calculate_confidence_score
            { ({} : StructuredInvoiceData) with invoice_metadata :=
                { ({} : StructuredInvoiceData).invoice_metadata with
                    invoice_number := some "INV-1" } } ≤ 1) :=
  ⟨⟨rfl, by decide, rfl⟩,
   spec_C7_monotone_confidence {} _ "INV-1" rfl (by decide) rfl⟩

/-- Helper: every draft that survives `processLine` passed
`validate_line_item`. -/
theorem processLine_validates {l : String} {it : DraftLineItem}
    (h : processLine l = some it) : validate_line_item it = true := by
  simp only [processLine] at h
  repeat' split at h
  all_goals first
    | (obtain rfl := Option.some.inj h; assumption)
    | exact absurd h (by simp)

/-- Helper: the categorizer only reorders and annotates: every output item
is `add_formatted` of some input item. -/
theorem mem_categorize {items : List DraftLineItem} {it : DraftLineItem}
    (h : it ∈ categorize_line_items items) :
    ∃ it0 ∈ items, it = add_formatted it0 := by
  unfold categorize_line_items at h
  simp only [List.mem_map, List.mem_append, List.mem_filter] at h
  obtain ⟨x, hx, rfl⟩ := h
  refine ⟨x, ?_, rfl⟩
  tauto

/-- Helper: the bounds enforced by `validate_line_item`. -/
theorem validate_line_item_bounds {it : DraftLineItem}
    (h : validate_line_item it = true) :
    3 ≤ it.description.length ∧ 0 ≤ it.amount ∧ it.amount ≤ 999999
    ∧ 0 ≤ it.quantity ∧ it.quantity ≤ 10000 := by
  unfold validate_line_item at h
  split_ifs at h with h1 h2 h3 h4
  push_neg at h2 h3
  exact ⟨by omega, h2.1, h2.2, h3.1, h3.2⟩

/-- C5.  Every item the line-item parser emits has a description of at
least 3 characters (hence non-empty), an amount in `[0, 999999]` and a
quantity in `[0, 10000]`; drafts violating any bound were dropped before
this list was built. -/
theorem spec_C5_item_bounds (text : String) (item : DraftLineItem)
    (h : item ∈ extract_line_items text) :
    3 ≤ item.description.length ∧ 0 ≤ item.amount ∧ item.amount ≤ 999999
    ∧ 0 ≤ item.quantity ∧ item.quantity ≤ 10000 := by
  unfold extract_line_items at h
  obtain ⟨it0, hmem, rfl⟩ := mem_categorize h
  rw [List.mem_filterMap] at hmem
  obtain ⟨l, _, hpl⟩ := hmem
  simpa [add_formatted] using validate_line_item_bounds (processLine_validates hpl)

/-- Helper: the parser's full output on the C5 witness text. -/
theorem c5Item_eval : extract_line_items "Consulting Services 100.00" = [c5Item] := by
  with_unfolding_all rfl

/-- Witness for C5 at a concrete input. -/
theorem spec_C5_item_bounds_witness :
    c5Item ∈ extract_line_items "Consulting Services 100.00"
    ∧ (3 ≤ c5Item.description.length ∧ 0 ≤ c5Item.amount ∧ c5Item.amount ≤ 999999
       ∧ 0 ≤ c5Item.quantity ∧ c5Item.quantity ≤ 10000) :=
  ⟨by rw [c5Item_eval]; exact List.mem_singleton_self _,
   spec_C5_item_bounds "Consulting Services 100.00" c5Item
     (by rw [c5Item_eval]; exact List.mem_singleton_self _)⟩

/-- C4 counterexample.  The line `"5 GST charge 100.00"` matches both
pattern 4 (tax) and pattern 6 (generic), yet its draft is produced with
item type `"product"`, not `"tax"`: pattern 1 also matches and, being
first, wins.  So "a line that matches both pattern 4 and pattern 6 is
produced by pattern 4" fails as stated. -/
theorem spec_C4_counterexample :
    (reSearch false lineItemPat4 "5 GST charge 100.00").isSome = true
    ∧ (reSearch false lineItemPat6 "5 GST charge 100.00").isSome = true
    ∧ ((lineDraft "5 GST charge 100.00").map fun item => item.item_type) = some "product"
    ∧ ((some "product" : Option String) ≠ some "tax") := by
  refine ⟨by with_unfolding_all rfl, by with_unfolding_all rfl,
          by with_unfolding_all rfl, by decide⟩

/-- C4 (amended).  The six line-shape patterns are tried in fixed order
1..6 and the first matching pattern determines the draft; in particular a
line on which patterns 1–3 fail and pattern 4 matches is produced by
pattern 4 with item type `"tax"` — even when pattern 6 (or 5) would also
match, since later patterns are never consulted once an earlier one
matches. -/
theorem spec_C4_first_match_wins (l : String)
    (h1 : reSearch false lineItemPat1 l = none)
    (h2 : reSearch false lineItemPat2 l = none)
    (h3 : reSearch false lineItemPat3 l = none)
    (h4 : (reSearch false lineItemPat4 l).isSome = true) :
    ((firstLineMatch 1 lineItemPats l).map Prod.fst = some 4)
    ∧ ((lineDraft l).map fun item => item.item_type) = some "tax" := by
  obtain ⟨m4, hm4⟩ := Option.isSome_iff_exists.mp h4
  have hfm : firstLineMatch 1 lineItemPats l = some (4, m4) := by
    simp [lineItemPats, firstLineMatch, h1, h2, h3, hm4]
  exact ⟨by rw [hfm]; rfl, by rw [lineDraft, hfm]; rfl⟩

/-- Witness for C4 at a concrete input: the line `"CGST 18.00"` is missed
by patterns 1–3 and caught by pattern 4. -/
theorem spec_C4_first_match_wins_witness :
    (reSearch false lineItemPat1 "CGST 18.00" = none
     ∧ reSearch false lineItemPat2 "CGST 18.00" = none
     ∧ reSearch false lineItemPat3 "CGST 18.00" = none
     ∧ (reSearch false lineItemPat4 "CGST 18.00").isSome = true)
    ∧ (((firstLineMatch 1 lineItemPats "CGST 18.00").map Prod.fst = some 4)
       ∧ ((lineDraft "CGST 18.00").map fun item => item.item_type) = some "tax") :=
  ⟨⟨by with_unfolding_all rfl, by with_unfolding_all rfl,
    by with_unfolding_all rfl, by with_unfolding_all rfl⟩,
   spec_C4_first_match_wins "CGST 18.00"
     (by with_unfolding_all rfl) (by with_unfolding_all rfl)
     (by with_unfolding_all rfl) (by with_unfolding_all rfl)⟩

/-- Helper: whatever the header scan returns is the code's cleaning of one
of the scanned lines, and longer than 3 characters. -/
theorem vendorHeaderScan_sound (ls : List String) (v : String)
    (h : vendorHeaderScan ls = some v) :
    ∃ l ∈ ls, v = vendorHeaderClean (pyStrip l) ∧ 3 < v.length := by
  induction ls with
  | nil => exact absurd h (by simp [vendorHeaderScan])
  | cons a t ih =>
    simp only [vendorHeaderScan] at h
    split at h
    · obtain ⟨l, hl, hv⟩ := ih h
      exact ⟨l, List.mem_cons_of_mem a hl, hv⟩
    · split at h
      · obtain ⟨l, hl, hv⟩ := ih h
        exact ⟨l, List.mem_cons_of_mem a hl, hv⟩
      · split at h
        · split at h
          · obtain rfl := Option.some.inj h
            exact ⟨a, List.mem_cons_self a t, rfl, by assumption⟩
          · obtain ⟨l, hl, hv⟩ := ih h
            exact ⟨l, List.mem_cons_of_mem a hl, hv⟩
        · obtain ⟨l, hl, hv⟩ := ih h
          exact ⟨l, List.mem_cons_of_mem a hl, hv⟩

/-- C8 counterexample.  On the text `"My_Vendor Inc"` stage 1 accepts the
first line and returns it unchanged — the code's class `[^\w\s&\.\-,]`
keeps the underscore (`\w`), while the claimed class `[A-Za-z0-9 &.,-]`
would delete it.  The returned vendor name is not the claimed cleaning of
the accepted line. -/
theorem spec_C8_counterexample :
    extract_vendor_name "My_Vendor Inc" = some "My_Vendor Inc"
    ∧ specVendorClean "My_Vendor Inc" = "MyVendor Inc"
    ∧ ("My_Vendor Inc" : String) ≠ "MyVendor Inc" :=
  ⟨by with_unfolding_all rfl, by with_unfolding_all rfl, by decide⟩

/-- C8 (amended).  When stage 1 of the vendor resolver accepts a line
within the first 10 lines, the returned vendor name is that line,
stripped, with every character removed that is outside the code's kept
set — word characters (letters, digits, underscore), whitespace, `&`,
`.`, `,`, `-` — stripped again, and a name is returned only when that
cleaned result is longer than 3 characters (otherwise the scan
continues). -/
theorem spec_C8_header_clean (text v : String)
    (h : vendorHeaderScan ((text.splitOn "\n").take 10) = some v) :
    ∃ l ∈ (text.splitOn "\n").take 10,
      v = vendorHeaderClean (pyStrip l) ∧ 3 < v.length :=
  vendorHeaderScan_sound _ v h

/-- Witness for C8 at a concrete input. -/
theorem spec_C8_header_clean_witness :
    vendorHeaderScan (("ACME Corp Inc.".splitOn "\n").take 10) = some "ACME Corp Inc."
    ∧ ∃ l ∈ (("ACME Corp Inc." : String).splitOn "\n").take 10,
        ("ACME Corp Inc." : String) = vendorHeaderClean (pyStrip l)
        ∧ 3 < ("ACME Corp Inc." : String).length :=
  ⟨by with_unfolding_all rfl,
   spec_C8_header_clean "ACME Corp Inc." "ACME Corp Inc." (by with_unfolding_all rfl)⟩

/-- C3 counterexample.  On the scenario text the extraction result's
invoice number is `"inv-2024-001"`, not `"INV-2024-001"`:
`extract_field` lower-cases the whole text before matching, so the
captured group comes out lower-cased. -/
theorem spec_C3_counterexample :
    ((extract_with_ai_fallback AdapterOutcome.unavailable true (fun _ => none)
        scenarioText).fst.map fun d => d.invoice_metadata.invoice_number)
      = some (some "inv-2024-001")
    ∧ (some (some "inv-2024-001") : Option (Option String))
        ≠ some (some "INV-2024-001") :=
  ⟨by with_unfolding_all rfl, by decide⟩

set_option maxHeartbeats 1000000 in
/-- C3 (amended).  On the scenario text, with the smart adapter
unavailable and fallback enabled, the extraction result has invoice
number `"inv-2024-001"` (the lower-cased form of the text's
`INV-2024-001`), a vendor name containing `"ACME Corp Inc."`, exactly one
line item which is a product with amount 2500.0, summary grand total
2500.0, method `"regex_fallback"` and confidence score 0.6. -/
theorem spec_C3_scenario :
    ∃ m, (extract_with_ai_fallback AdapterOutcome.unavailable true (fun _ => none)
            scenarioText).fst = some m
      ∧ (extract_with_ai_fallback AdapterOutcome.unavailable true (fun _ => none)
            scenarioText).snd = "regex_fallback"
      ∧ m.invoice_metadata.invoice_number = some "inv-2024-001"
      ∧ (∃ v, m.vendor_details.name = some v ∧ containsWord v "ACME Corp Inc." = true)
      ∧ m.line_items.length = 1
      ∧ (m.line_items.map fun item => item.category) = ["product"]
      ∧ (m.line_items.map fun item => item.total) = [2500]
      ∧ m.summary.grand_total = 2500
      ∧ m.extraction_metadata.method = "regex_fallback"
      ∧ m.extraction_metadata.confidence_score = some 0.6 := by
  refine ⟨_, rfl, rfl, by with_unfolding_all rfl,
          ⟨"ACME Corp Inc.", by with_unfolding_all rfl, by with_unfolding_all rfl⟩,
          by with_unfolding_all rfl, by with_unfolding_all rfl,
          by with_unfolding_all rfl, by with_unfolding_all rfl, rfl, rfl⟩

end AIInvoice
